import Mathlib

/-!
Verification of the pixel-classification core of `LandsatFire_v1_0.py`
(horizonmaps/landsatfire).

Shallow embedding conventions:
* A raster band is a `Grid m n ℚ`: machine floating-point reflectance values
  are modelled as exact rationals, and float arithmetic as exact rational
  arithmetic.
* NumPy boolean arrays are `Grid m n Bool`; `numpy.ma` masked arrays are
  `MaskedGrid` records carrying the raw `data` grid and the boolean `mask`
  grid.  Following `numpy.ma` semantics, elementwise comparisons and logical
  operations compute their result on the raw data and OR the masks, item
  assignment with an unmasked constant unmasks the assigned entries, and
  `.data` returns the raw data with the mask discarded.
* Division results that IEEE arithmetic makes non-finite (the window
  statistics are computed under `np.errstate(divide='ignore',
  invalid='ignore')`, so dividing by a zero weight yields `nan`) are modelled
  by `Option ℚ`: `none` stands for a non-finite value.  Every `>` comparison
  against a non-finite value is `false`, and `x[x < c] = c` leaves non-finite
  entries unchanged, exactly as IEEE comparisons with `nan`/`inf` behave in
  the code paths used here.
* `scipy.ndimage.uniform_filter(size=61)` is embedded as the separable
  61-point moving average along each axis with the default `reflect`
  boundary mode.
* The float `** 0.5` in the standard-deviation computation is abstracted by
  a square-root parameter `sq : ℚ → ℚ`; concrete evaluations instantiate it
  with `Rat.sqrt` and only ever take square roots of exact squares.
-/

/-- A two-dimensional raster grid with `m` rows and `n` columns. -/
def Grid (m n : ℕ) (α : Type) : Type := Fin m → Fin n → α

/-- The seven Landsat band arrays `band1` … `band7` loaded by the script
(module-level globals in the source, passed here as an explicit context). -/
structure Bands (m n : ℕ) where
  band1 : Grid m n ℚ
  band2 : Grid m n ℚ
  band3 : Grid m n ℚ
  band4 : Grid m n ℚ
  band5 : Grid m n ℚ
  band6 : Grid m n ℚ
  band7 : Grid m n ℚ

/-- Embeds `ratio75 = band7/band5` (line 630). -/
def ratio75 {m n : ℕ} (c : Bands m n) : Grid m n ℚ :=
  fun i j => c.band7 i j / c.band5 i j

/-- Embeds `ratio76 = band7/band6` (line 631). -/
def ratio76 {m n : ℕ} (c : Bands m n) : Grid m n ℚ :=
  fun i j => c.band7 i j / c.band6 i j

/-- Embeds `diff17 = band1 - band7` (line 633). -/
def diff17 {m n : ℕ} (c : Bands m n) : Grid m n ℚ :=
  fun i j => c.band1 i j - c.band7 i j

/-- Embeds `diff75 = band7 - band5` (line 634). -/
def diff75 {m n : ℕ} (c : Bands m n) : Grid m n ℚ :=
  fun i j => c.band7 i j - c.band5 i j

/-- Embeds `unambiguous_fire` (lines 240–246): elementwise
`(ratio75 > 2.5) & (diff75 > 0.3) & (band7 > 0.5)`.
The `write_values` GeoTiff export branch is I/O and is not modelled. -/
def unambiguous_fire {m n : ℕ} (c : Bands m n) : Grid m n Bool :=
  fun i j =>
    let fire_test_1 := decide ((2.5 : ℚ) < ratio75 c i j)
    let fire_test_2 := decide ((0.3 : ℚ) < diff75 c i j)
    let fire_test_3 := decide ((0.5 : ℚ) < c.band7 i j)
    fire_test_1 && (fire_test_2 && fire_test_3)

/-- Embeds `dn_fold` (lines 285–293): elementwise
`(band6 > 0.8 & band1 < 0.2) & (band5 > 0.4 | band7 < 0.1)`. -/
def dn_fold {m n : ℕ} (c : Bands m n) : Grid m n Bool :=
  fun i j =>
    let dn_fold_test_1 := decide ((0.8 : ℚ) < c.band6 i j)
    let dn_fold_test_2 := decide (c.band1 i j < (0.2 : ℚ))
    let dn_fold_test_3 := decide ((0.4 : ℚ) < c.band5 i j)
    let dn_fold_test_4 := decide (c.band7 i j < (0.1 : ℚ))
    (dn_fold_test_1 && dn_fold_test_2) && (dn_fold_test_3 || dn_fold_test_4)

/-- Embeds `water_pixels` (lines 335–345): base test
`(band4 > band5 & band5 > band6) & (band6 > band7 & diff17 < 0.2)` AND
water-type test `(band3 > band2) | (band1 > band2 & band2 > band3 & band3 > band4)`. -/
def water_pixels {m n : ℕ} (c : Bands m n) : Grid m n Bool :=
  fun i j =>
    let water_criterion_1 :=
      decide (c.band5 i j < c.band4 i j) && decide (c.band6 i j < c.band5 i j)
    let water_criterion_2 :=
      decide (c.band7 i j < c.band6 i j) && decide (diff17 c i j < (0.2 : ℚ))
    let water_base_criterion := water_criterion_1 && water_criterion_2
    let water_criterion_3 := decide (c.band2 i j < c.band3 i j)
    let water_criterion_4 :=
      (decide (c.band2 i j < c.band1 i j) && decide (c.band3 i j < c.band2 i j))
        && decide (c.band4 i j < c.band3 i j)
    let water_type_criterion := water_criterion_3 || water_criterion_4
    water_base_criterion && water_type_criterion

/-- Embeds `background` (lines 384–389):
`~(unambiguous_array | water_array) & (band7 > 0)`. -/
def background {m n : ℕ} (c : Bands m n)
    (unambiguous_array water_array : Grid m n Bool) : Grid m n Bool :=
  fun i j =>
    (!(unambiguous_array i j || water_array i j)) && decide ((0 : ℚ) < c.band7 i j)

/-- A `numpy.ma` masked array: the raw `data` buffer together with the
boolean `mask` (`true` = element is masked out). -/
structure MaskedGrid (m n : ℕ) (α : Type) where
  data : Grid m n α
  mask : Grid m n Bool

/-- Elementwise `>` of a masked array against a scalar: per `numpy.ma`
semantics the result data is the comparison of the raw data and the mask is
carried over. -/
def maGtScalar {m n : ℕ} (a : MaskedGrid m n ℚ) (q : ℚ) : MaskedGrid m n Bool where
  data := fun i j => decide (q < a.data i j)
  mask := a.mask

/-- Elementwise `np.logical_and` of two masked boolean arrays: raw data are
conjoined, masks are OR-ed. -/
def maAnd {m n : ℕ} (a b : MaskedGrid m n Bool) : MaskedGrid m n Bool where
  data := fun i j => a.data i j && b.data i j
  mask := fun i j => a.mask i j || b.mask i j

/-- A possibly non-finite float value: `none` models `nan`/`inf` produced by
division by zero under `np.errstate(...='ignore')`. -/
def FVal : Type := Option ℚ

/-- Division producing a possibly non-finite value: dividing by `0` gives a
non-finite IEEE result instead of raising. -/
def fdiv (a b : ℚ) : FVal := if b = 0 then none else some (a / b)

/-- Subtraction on possibly non-finite values (`nan`/`inf` absorb). -/
def fsub : FVal → FVal → FVal
  | some a, some b => some (a - b)
  | _, _ => none

/-- Multiplication on possibly non-finite values (`nan`/`inf` absorb; the
operands in this pipeline are never a zero times an infinity). -/
def fmul : FVal → FVal → FVal
  | some a, some b => some (a * b)
  | _, _ => none

/-- Float `** 0.5` with square root abstracted by `sq`: the square root of a
negative number is `nan`, and `nan`/`inf` inputs stay non-finite. -/
def fsqrt (sq : ℚ → ℚ) : FVal → FVal
  | some a => if a < 0 then none else some (sq a)
  | none => none

/-- Scaling by the finite scalar `3` (`x *= 3`); non-finite stays non-finite. -/
def fscale (k : ℚ) : FVal → FVal
  | some a => some (k * a)
  | none => none

/-- Embeds the in-place clamp `x[x < floor] = floor`: an IEEE comparison of a
`nan`/`inf` entry against the floor is false, so non-finite entries are left
unchanged. -/
def fclampFloor (floor : ℚ) : FVal → FVal
  | some a => some (if a < floor then floor else a)
  | none => none

/-- IEEE `>` of a finite value against a possibly non-finite threshold:
comparisons against `nan` are false, and the thresholds in this pipeline are
never `-inf`, so a non-finite right-hand side always compares false. -/
def fgt (a : ℚ) : FVal → Bool
  | some b => decide (b < a)
  | none => false

/-- Elementwise `>` of a masked array against a plain (possibly non-finite)
array: data compares raw values, mask is carried over. -/
def maGtArr {m n : ℕ} (a : MaskedGrid m n ℚ) (b : Grid m n FVal) :
    MaskedGrid m n Bool where
  data := fun i j => fgt (a.data i j) (b i j)
  mask := a.mask

/-- Index mapping of the `scipy.ndimage` default boundary mode `reflect`
(`(d c b a | a b c d | d c b a)`): coordinate `t` on an axis of positive
length `m` is folded into `[0, m)` with period `2*m`. -/
def reflectFin (m : ℕ) (hm : 0 < m) (t : ℤ) : Fin m :=
  let r := (t % (2 * (m : ℤ))).toNat
  if h : r < m then ⟨r, h⟩
  else ⟨2 * m - 1 - r, by omega⟩

/-- One 61-point uniform moving average along axis 0 (rows), `reflect`
boundary: the window spans offsets `-30 … 30`. -/
def uf1dCol {m n : ℕ} (g : Grid m n ℚ) : Grid m n ℚ :=
  fun i j =>
    (∑ d ∈ Finset.Icc (-30 : ℤ) 30, g (reflectFin m i.pos ((i : ℤ) + d)) j) / 61

/-- One 61-point uniform moving average along axis 1 (columns), `reflect`
boundary. -/
def uf1dRow {m n : ℕ} (g : Grid m n ℚ) : Grid m n ℚ :=
  fun i j =>
    (∑ d ∈ Finset.Icc (-30 : ℤ) 30, g i (reflectFin n j.pos ((j : ℤ) + d))) / 61

/-- Embeds `nd.uniform_filter(·, size=61)`: the separable application of the
61-point uniform average along each axis with `reflect` boundary handling
(exact arithmetic in place of float32). -/
def uniform_filter {m n : ℕ} (g : Grid m n ℚ) : Grid m n ℚ :=
  uf1dRow (uf1dCol g)

/-- Embeds `bg_mask = bg_array.astype(np.float32)` (line 450). -/
def bg_mask {m n : ℕ} (bg_array : Grid m n Bool) : Grid m n ℚ :=
  fun i j => if bg_array i j then 1 else 0

/-- Embeds `weights = nd.uniform_filter(bg_mask, size=61)` (line 451). -/
def weights {m n : ℕ} (bg_array : Grid m n Bool) : Grid m n ℚ :=
  uniform_filter (bg_mask bg_array)

/-- Embeds `mask_band7 = band7 * bg_mask` (line 455). -/
def mask_band7 {m n : ℕ} (c : Bands m n) (bg_array : Grid m n Bool) : Grid m n ℚ :=
  fun i j => c.band7 i j * bg_mask bg_array i j

/-- Embeds `mask_ratio75 = ratio75 * bg_mask` (line 456). -/
def mask_ratio75 {m n : ℕ} (c : Bands m n) (bg_array : Grid m n Bool) : Grid m n ℚ :=
  fun i j => ratio75 c i j * bg_mask bg_array i j

/-- Embeds `b7_means = nd.uniform_filter(mask_band7, size=61); b7_means /= weights`
(lines 461–462), with the division-by-zero-weight case yielding a non-finite
value (suppressed by `np.errstate`). -/
def b7_means {m n : ℕ} (c : Bands m n) (bg_array : Grid m n Bool) : Grid m n FVal :=
  fun i j => fdiv (uniform_filter (mask_band7 c bg_array) i j) (weights bg_array i j)

/-- Embeds `ratio75_means = nd.uniform_filter(mask_ratio75, size=61) / weights`
(lines 464–465). -/
def ratio75_means {m n : ℕ} (c : Bands m n) (bg_array : Grid m n Bool) :
    Grid m n FVal :=
  fun i j => fdiv (uniform_filter (mask_ratio75 c bg_array) i j) (weights bg_array i j)

/-- Embeds `b7_squares = nd.uniform_filter(mask_band7*mask_band7, size=61) / weights`
(lines 469, 472). -/
def b7_squares {m n : ℕ} (c : Bands m n) (bg_array : Grid m n Bool) :
    Grid m n FVal :=
  fun i j =>
    fdiv (uniform_filter (fun a b => mask_band7 c bg_array a b * mask_band7 c bg_array a b) i j)
      (weights bg_array i j)

/-- Embeds `ratio75_squares = nd.uniform_filter(mask_ratio75*mask_ratio75, size=61) / weights`
(lines 470, 473). -/
def ratio75_squares {m n : ℕ} (c : Bands m n) (bg_array : Grid m n Bool) :
    Grid m n FVal :=
  fun i j =>
    fdiv
      (uniform_filter (fun a b => mask_ratio75 c bg_array a b * mask_ratio75 c bg_array a b) i j)
      (weights bg_array i j)

/-- Embeds `b7_stddev = (b7_squares - b7_means*b7_means)**0.5` (line 475). -/
def b7_stddev {m n : ℕ} (sq : ℚ → ℚ) (c : Bands m n) (bg_array : Grid m n Bool) :
    Grid m n FVal :=
  fun i j =>
    fsqrt sq (fsub (b7_squares c bg_array i j)
      (fmul (b7_means c bg_array i j) (b7_means c bg_array i j)))

/-- Embeds `ratio75_stddev = (ratio75_squares - ratio75_means*ratio75_means)**0.5`
(line 476). -/
def ratio75_stddev {m n : ℕ} (sq : ℚ → ℚ) (c : Bands m n) (bg_array : Grid m n Bool) :
    Grid m n FVal :=
  fun i j =>
    fsqrt sq (fsub (ratio75_squares c bg_array i j)
      (fmul (ratio75_means c bg_array i j) (ratio75_means c bg_array i j)))

/-- Embeds `b7_stddev *= 3; b7_stddev[b7_stddev < 0.08] = 0.08` (lines 478–479). -/
def b7_stddev_clamped {m n : ℕ} (sq : ℚ → ℚ) (c : Bands m n)
    (bg_array : Grid m n Bool) : Grid m n FVal :=
  fun i j => fclampFloor (0.08 : ℚ) (fscale 3 (b7_stddev sq c bg_array i j))

/-- Embeds `ratio75_stddev *= 3; ratio75_stddev[ratio75_stddev < 0.8] = 0.8`
(lines 481–482). -/
def ratio75_stddev_clamped {m n : ℕ} (sq : ℚ → ℚ) (c : Bands m n)
    (bg_array : Grid m n Bool) : Grid m n FVal :=
  fun i j => fclampFloor (0.8 : ℚ) (fscale 3 (ratio75_stddev sq c bg_array i j))

/-- Embeds the body of `potential_fire` before the edge-masking block
(lines 434–486): direct thresholds on the masked copies of the derived
arrays, the window statistics, and the adaptive threshold test. -/
def potential_core {m n : ℕ} (sq : ℚ → ℚ) (c : Bands m n)
    (bg_array : Grid m n Bool) : MaskedGrid m n Bool :=
  let bg_inv : Grid m n Bool := fun i j => !bg_array i j
  let ma_ratio75 : MaskedGrid m n ℚ := ⟨ratio75 c, bg_inv⟩
  let ma_ratio76 : MaskedGrid m n ℚ := ⟨ratio76 c, bg_inv⟩
  let ma_diff75 : MaskedGrid m n ℚ := ⟨diff75 c, bg_inv⟩
  let ma_band7 : MaskedGrid m n ℚ := ⟨c.band7, bg_inv⟩
  let potential_test_1 := maAnd (maGtScalar ma_ratio75 1.8) (maGtScalar ma_diff75 0.17)
  let potential_test_2 := maGtScalar ma_ratio76 1.6
  let potential_test_3 := maAnd potential_test_1 potential_test_2
  let potential_test_4 :=
    maAnd (maGtArr ma_ratio75 (ratio75_stddev_clamped sq c bg_array))
      (maGtArr ma_band7 (b7_stddev_clamped sq c bg_array))
  maAnd potential_test_3 potential_test_4

/-- The set of indices zeroed by the edge-masking item assignments
`potential_array[:30,:] = 0`, `potential_array[-30:,:] = 0`,
`potential_array[:,:30] = 0`, `potential_array[:,-30:] = 0` (lines 491–494);
note the NumPy slices cover the whole axis when its length is below 30. -/
def isEdge (m n : ℕ) (i : Fin m) (j : Fin n) : Bool :=
  decide ((i : ℕ) < 30) || decide (m - 30 ≤ (i : ℕ))
    || decide ((j : ℕ) < 30) || decide (n - 30 ≤ (j : ℕ))

/-- Embeds `potential_fire(bg_array, mask_edges)` (lines 393–507).  The
`write_values` GeoTiff export is I/O and is not modelled.  Assigning the
unmasked constant `0` to the edge slices sets the raw data to `False` and
clears the mask there, per `numpy.ma` item-assignment semantics. -/
def potential_fire {m n : ℕ} (sq : ℚ → ℚ) (c : Bands m n)
    (bg_array : Grid m n Bool) (mask_edges : Bool) : MaskedGrid m n Bool :=
  let potential_array := potential_core sq c bg_array
  if mask_edges then
    { data := fun i j => if isEdge m n i j then false else potential_array.data i j
      mask := fun i j => if isEdge m n i j then false else potential_array.mask i j }
  else potential_array

/-- Embeds `make_classified_array` (lines 539–556):
`class_arr = zeros + dn_fold.astype(uint8) + unambiguous.astype(uint8)*2 +
potential.astype(uint8)*3`, returning `class_arr.data` — the raw buffer of
the masked sum, so masked entries of `potential_array` contribute their raw
data.  Values stay far below 256, so `uint8` arithmetic is plain ℕ here. -/
def make_classified_array {m n : ℕ} (dn_fold_array unambiguous_array : Grid m n Bool)
    (potential_array : MaskedGrid m n Bool) : Grid m n ℕ :=
  fun i j =>
    (if dn_fold_array i j then 1 else 0)
      + (if unambiguous_array i j then 1 else 0) * 2
      + (if potential_array.data i j then 1 else 0) * 3

/-- Embeds the main classification sequence (lines 645–661): detectors,
background mask, potential-fire mask, composite classified array. -/
def classify {m n : ℕ} (sq : ℚ → ℚ) (c : Bands m n) (edges_check : Bool) :
    Grid m n ℕ :=
  let unambiguous_pix := unambiguous_fire c
  let dn_fold_pix := dn_fold c
  let water_pix := water_pixels c
  let background_pix := background c unambiguous_pix water_pix
  let potential_pix := potential_fire sq c background_pix edges_check
  make_classified_array dn_fold_pix unambiguous_pix potential_pix

/-- A Python runtime error relevant to the shape-check path. -/
inductive PyError : Type
  | typeError : PyError
  | valueError : PyError
  deriving DecidableEq

/-- Embeds subscripting the bound method `tuple.count` — the expression
`shapes_list.count[shapes_list[0]]` on line 205 uses square brackets, not a
call, and subscripting a `builtin_function_or_method` raises `TypeError`
before anything is compared. -/
def countSubscript (_idx : ℕ × ℕ) : Except PyError ℕ := .error .typeError

/-- Embeds `check_shapes` (lines 185–209) over the shapes of the seven
loaded band arrays. -/
def check_shapes (shapes_list : Fin 7 → ℕ × ℕ) : Except PyError (Bool × Bool) := do
  let cnt ← countSubscript (shapes_list 0)
  let shape_test := decide (cnt = 7)
  let size_test := decide ((shapes_list 0).1 < 61) || decide ((shapes_list 0).2 < 61)
  return (shape_test, size_test)

/-- Modelled from the spec and the docstring of `check_shapes` (its
documented behaviour, which the body fails to implement): `shape_test` is
true exactly when all seven shapes agree, `size_test` when either dimension
of the first shape is below 61. -/
def check_shapes_documented (shapes_list : Fin 7 → ℕ × ℕ) :
    Except PyError (Bool × Bool) :=
  let shape_test :=
    decide ((List.ofFn shapes_list).count (shapes_list 0) = 7)
  let size_test := decide ((shapes_list 0).1 < 61) || decide ((shapes_list 0).2 < 61)
  .ok (shape_test, size_test)

/-- Embeds the shape sanity check of the main script (lines 620–626):
`check_shapes` is called, and a `ValueError` is raised when `shape_test` is
`False`; only on success does classification proceed. -/
def band_shape_check_step (shapes_list : Fin 7 → ℕ × ℕ) : Except PyError Bool := do
  let r ← check_shapes shapes_list
  if r.1 = false then .error .valueError else return r.1

/-- A 1×1 test scene whose single pixel is simultaneously a DN-fold pixel
(band6 > 0.8, band1 < 0.2, band5 > 0.4) and a background potential-fire pixel
(ratio75 = 2.5 is not strictly above the unambiguous-fire threshold 2.5, so
the pixel stays in the background population). -/
def exC1 : Bands 1 1 where
  band1 := fun _ _ => 0.1
  band2 := fun _ _ => 0.1
  band3 := fun _ _ => 0.1
  band4 := fun _ _ => 0.1
  band5 := fun _ _ => 0.6
  band6 := fun _ _ => 0.9
  band7 := fun _ _ => 1.5

/-- The background mask the main script computes for `exC1`. -/
def exC1bg : Grid 1 1 Bool :=
  background exC1 (unambiguous_fire exC1) (water_pixels exC1)

/-- A 1×2 test scene: pixel (0,0) is an unambiguous-fire pixel (ratio75 = 6,
diff75 = 0.5, band7 = 0.6), hence not background; pixel (0,1) is an ordinary
background pixel with all bands 0.3. -/
def exC2 : Bands 1 2 where
  band1 := fun _ j => if j = 0 then 0.1 else 0.3
  band2 := fun _ j => if j = 0 then 0.1 else 0.3
  band3 := fun _ j => if j = 0 then 0.1 else 0.3
  band4 := fun _ j => if j = 0 then 0.1 else 0.3
  band5 := fun _ j => if j = 0 then 0.1 else 0.3
  band6 := fun _ j => if j = 0 then 0.1 else 0.3
  band7 := fun _ j => if j = 0 then 0.6 else 0.3

/-- The background mask the main script computes for `exC2`: `false` at
pixel (0,0) (unambiguous fire), `true` at pixel (0,1). -/
def exC2bg : Grid 1 2 Bool :=
  background exC2 (unambiguous_fire exC2) (water_pixels exC2)

/-- An all-false background mask over a 1×1 scene: every 61×61 window weight
is zero, driving the division-by-zero path of the window statistics. -/
def exC4zbg : Grid 1 1 Bool := fun _ _ => false

/-- The spec's unambiguous-fire example pixel: band5 = 0.1, band7 = 0.6
(so ratio75 = 6 and diff75 = 0.5), all other bands 0.1. -/
def exC7a : Bands 1 1 where
  band1 := fun _ _ => 0.1
  band2 := fun _ _ => 0.1
  band3 := fun _ _ => 0.1
  band4 := fun _ _ => 0.1
  band5 := fun _ _ => 0.1
  band6 := fun _ _ => 0.1
  band7 := fun _ _ => 0.6

/-- The same pixel with band7 lowered to exactly the threshold 0.5. -/
def exC7b : Bands 1 1 where
  band1 := fun _ _ => 0.1
  band2 := fun _ _ => 0.1
  band3 := fun _ _ => 0.1
  band4 := fun _ _ => 0.1
  band5 := fun _ _ => 0.1
  band6 := fun _ _ => 0.1
  band7 := fun _ _ => 0.5

/-- The spec's water worked example: bands (0.3, 0.25, 0.2, 0.15, 0.1, 0.08,
0.05), so diff17 = 0.25. -/
def exC8a : Bands 1 1 where
  band1 := fun _ _ => 0.3
  band2 := fun _ _ => 0.25
  band3 := fun _ _ => 0.2
  band4 := fun _ _ => 0.15
  band5 := fun _ _ => 0.1
  band6 := fun _ _ => 0.08
  band7 := fun _ _ => 0.05

/-- The spec's water worked example after lowering band1 to 0.2 (diff17 =
0.15). -/
def exC8b : Bands 1 1 where
  band1 := fun _ _ => 0.2
  band2 := fun _ _ => 0.25
  band3 := fun _ _ => 0.2
  band4 := fun _ _ => 0.15
  band5 := fun _ _ => 0.1
  band6 := fun _ _ => 0.08
  band7 := fun _ _ => 0.05

/-- The spec's DN-fold example pixel: band1 = 0.1, band5 = 0.5, band6 = 0.9,
band7 = 0.05 (remaining bands 0.1). -/
def exC9 : Bands 1 1 where
  band1 := fun _ _ => 0.1
  band2 := fun _ _ => 0.1
  band3 := fun _ _ => 0.1
  band4 := fun _ _ => 0.1
  band5 := fun _ _ => 0.5
  band6 := fun _ _ => 0.9
  band7 := fun _ _ => 0.05

/-- Helper: a 61-point moving average along an axis of length 1 is the
identity, since every reflected index collapses to 0. -/
theorem uf1dCol_rowone {n : ℕ} (g : Grid 1 n ℚ) : uf1dCol g = g := by
  funext i j
  have hrefl : ∀ (h : 0 < 1) (t : ℤ), reflectFin 1 h t = 0 := fun h t => Fin.eq_zero _
  have hi : i = 0 := Fin.eq_zero _
  simp only [uf1dCol, hrefl, hi]
  have h61 : ((30 : ℤ) + 1 - -30).toNat = 61 := rfl
  rw [Finset.sum_const, Int.card_Icc, h61, nsmul_eq_mul]
  push_cast
  exact mul_div_cancel_left₀ _ (by norm_num)

/-- Helper: on single-row grids `uniform_filter` reduces to the column pass. -/
theorem uniform_filter_rowone {n : ℕ} (g : Grid 1 n ℚ) :
    uniform_filter g = uf1dRow g := by
  rw [uniform_filter, uf1dCol_rowone]

set_option maxRecDepth 100000 in
unseal Rat.add Rat.sub Rat.mul Rat.inv Rat.ofScientific in
/-- C1: the claim states that every value of the classified raster produced
by `make_classified_array` lies in {0,1,2,3} for every input band set and
configuration.  This is FALSE on the code: on the 1×1 scene `exC1`, whose
single pixel is both a DN-fold pixel and a background potential-fire pixel
(and neither unambiguous fire nor water), the classified value is
1·1 + 2·0 + 3·1 = 4, outside the claimed domain — the downstream polygonize
loop, which indexes a 4-element class list by this value, would crash. -/
theorem C1_classified_value_four :
    classify Rat.sqrt exC1 false 0 0 = 4 ∧ (4 : ℕ) ∉ ({0, 1, 2, 3} : Finset ℕ) := by
  constructor
  · simp only [classify, make_classified_array, potential_fire, potential_core,
      maAnd, maGtScalar, maGtArr, b7_stddev_clamped, b7_stddev, b7_means, b7_squares,
      ratio75_stddev_clamped, ratio75_stddev, ratio75_means, ratio75_squares,
      weights, uniform_filter_rowone]
    decide
  · decide

set_option maxRecDepth 100000 in
unseal Rat.add Rat.sub Rat.mul Rat.inv Rat.ofScientific in
/-- C2: the claim states that wherever the background mask passed to
`potential_fire` is FALSE, the returned potential-fire mask is FALSE under
either edge-flag setting.  This is FALSE on the code: on the 1×2 scene
`exC2` with edge masking disabled, pixel (0,0) is an unambiguous-fire pixel
(background mask FALSE), yet the raw data of the returned masked array is
TRUE there (the `numpy.ma` comparisons compute raw data under the mask), and
`make_classified_array`, which reads `.data`, assigns it 2 + 3 = 5. -/
theorem C2_nonbackground_pixel_leaks_true :
    exC2bg 0 0 = false
      ∧ (potential_fire Rat.sqrt exC2 exC2bg false).data 0 0 = true
      ∧ (potential_fire Rat.sqrt exC2 exC2bg false).mask 0 0 = true
      ∧ classify Rat.sqrt exC2 false 0 0 = 5 := by
  refine ⟨by decide, ?_, by decide, ?_⟩
  · simp only [exC2bg, potential_fire, potential_core,
      maAnd, maGtScalar, maGtArr, b7_stddev_clamped, b7_stddev, b7_means, b7_squares,
      ratio75_stddev_clamped, ratio75_stddev, ratio75_means, ratio75_squares,
      weights, uniform_filter_rowone]
    decide
  · simp only [classify, make_classified_array, potential_fire, potential_core,
      maAnd, maGtScalar, maGtArr, b7_stddev_clamped, b7_stddev, b7_means, b7_squares,
      ratio75_stddev_clamped, ratio75_stddev, ratio75_means, ratio75_squares,
      weights, uniform_filter_rowone]
    decide

/-- C3: the claim states that with seven equal-shaped grids `check_shapes`
returns `shape_test = True` and classification proceeds (and that a
mismatched shape raises a shape-mismatch error).  This is FALSE on the code:
`check_shapes` subscripts the bound method `tuple.count` (square brackets on
line 205 instead of a call), so it raises `TypeError` on every input — even
seven identical 100×100 shapes — and never returns; the documented
behaviour (`check_shapes_documented`) would return `(True, False)` there. -/
theorem C3_check_shapes_type_error :
    check_shapes (fun _ => (100, 100)) = .error .typeError
      ∧ band_shape_check_step (fun _ => (100, 100)) = .error .typeError
      ∧ check_shapes_documented (fun _ => (100, 100)) = .ok (true, false) := by
  refine ⟨rfl, rfl, rfl⟩

/-- C4: in `potential_fire`, for each of band7 and ratio75 the window mean
equals `uniform_filter(value × background-indicator) / weight`, the mean of
squares equals `uniform_filter(value² × indicator) / weight`, and the
standard deviation is the square root of (mean-of-squares − mean²); each
standard deviation is scaled by 3 and clamped to a floor of 0.08 for band7
and 0.8 for ratio75; the adaptive test is `ratio75 > clamped scaled ratio75
stddev AND band7 > clamped scaled band7 stddev`; and a zero window weight is
suppressed rather than raised, producing a non-finite value that fails every
subsequent `>` comparison, so the adaptive test is false there. -/
theorem C4_window_statistics {m n : ℕ} (sq : ℚ → ℚ) (c : Bands m n)
    (bg : Grid m n Bool) (i : Fin m) (j : Fin n) :
    (weights bg i j ≠ 0 →
        b7_means c bg i j = some (uniform_filter (mask_band7 c bg) i j / weights bg i j)
      ∧ b7_squares c bg i j =
          some (uniform_filter (fun a b => mask_band7 c bg a b * mask_band7 c bg a b) i j
            / weights bg i j)
      ∧ ratio75_means c bg i j =
          some (uniform_filter (mask_ratio75 c bg) i j / weights bg i j)
      ∧ ratio75_squares c bg i j =
          some (uniform_filter (fun a b => mask_ratio75 c bg a b * mask_ratio75 c bg a b) i j
            / weights bg i j))
    ∧ b7_stddev sq c bg i j
        = fsqrt sq (fsub (b7_squares c bg i j)
            (fmul (b7_means c bg i j) (b7_means c bg i j)))
    ∧ ratio75_stddev sq c bg i j
        = fsqrt sq (fsub (ratio75_squares c bg i j)
            (fmul (ratio75_means c bg i j) (ratio75_means c bg i j)))
    ∧ b7_stddev_clamped sq c bg i j = fclampFloor 0.08 (fscale 3 (b7_stddev sq c bg i j))
    ∧ ratio75_stddev_clamped sq c bg i j
        = fclampFloor 0.8 (fscale 3 (ratio75_stddev sq c bg i j))
    ∧ (potential_core sq c bg).data i j
        = (((decide ((1.8 : ℚ) < ratio75 c i j) && decide ((0.17 : ℚ) < diff75 c i j))
              && decide ((1.6 : ℚ) < ratio76 c i j))
            && (fgt (ratio75 c i j) (ratio75_stddev_clamped sq c bg i j)
              && fgt (c.band7 i j) (b7_stddev_clamped sq c bg i j)))
    ∧ (weights bg i j = 0 →
          b7_means c bg i j = none
        ∧ b7_stddev_clamped sq c bg i j = none
        ∧ ratio75_stddev_clamped sq c bg i j = none
        ∧ fgt (c.band7 i j) (b7_stddev_clamped sq c bg i j) = false
        ∧ fgt (ratio75 c i j) (ratio75_stddev_clamped sq c bg i j) = false
        ∧ (potential_core sq c bg).data i j = false) := by
  refine ⟨?_, rfl, rfl, rfl, rfl, rfl, ?_⟩
  · intro hw
    refine ⟨?_, ?_, ?_, ?_⟩ <;>
      simp [b7_means, b7_squares, ratio75_means, ratio75_squares, fdiv, hw]
  · intro hw
    have hm : b7_means c bg i j = none := by simp [b7_means, fdiv, hw]
    have hb : b7_stddev_clamped sq c bg i j = none := by
      simp [b7_stddev_clamped, b7_stddev, b7_squares, fdiv, hw, fsub, fsqrt, fscale,
        fclampFloor]
    have hr : ratio75_stddev_clamped sq c bg i j = none := by
      simp [ratio75_stddev_clamped, ratio75_stddev, ratio75_squares, fdiv, hw, fsub,
        fsqrt, fscale, fclampFloor]
    refine ⟨hm, hb, hr, by rw [hb]; rfl, by rw [hr]; rfl, ?_⟩
    show (((decide ((1.8 : ℚ) < ratio75 c i j) && decide ((0.17 : ℚ) < diff75 c i j))
              && decide ((1.6 : ℚ) < ratio76 c i j))
            && (fgt (ratio75 c i j) (ratio75_stddev_clamped sq c bg i j)
              && fgt (c.band7 i j) (b7_stddev_clamped sq c bg i j))) = false
    rw [hb, hr]
    simp [fgt]

set_option maxRecDepth 100000 in
unseal Rat.add Rat.sub Rat.mul Rat.inv Rat.ofScientific in
/-- C4 witness: on the 1×1 scene `exC1` the window weight is 1 ≠ 0 and the
mean formula applies; with the all-false background mask `exC4zbg` the
weight is 0 and the adaptive test evaluates to false. -/
theorem C4_window_statistics_witness :
    b7_means exC1 exC1bg 0 0
        = some (uniform_filter (mask_band7 exC1 exC1bg) 0 0 / weights exC1bg 0 0)
      ∧ (potential_core Rat.sqrt exC1 exC4zbg).data 0 0 = false := by
  have hne : weights exC1bg 0 0 ≠ 0 := by
    simp only [weights, uniform_filter_rowone]
    decide
  have hz : weights exC4zbg 0 0 = 0 := by
    simp only [weights, uniform_filter_rowone]
    decide
  exact ⟨((C4_window_statistics Rat.sqrt exC1 exC1bg 0 0).1 hne).1,
    ((C4_window_statistics Rat.sqrt exC1 exC4zbg 0 0).2.2.2.2.2.2 hz).2.2.2.2.2⟩

/-- C5: with the edge-masking flag enabled, every pixel within 30 pixels of
any grid edge is FALSE in `potential_fire`'s output (raw data and mask both
cleared by the slice assignments) regardless of the threshold and statistics
tests; with the flag disabled the returned array is exactly the core
computation, so border pixels are computed by the same test as interior
pixels. -/
theorem C5_edge_masking {m n : ℕ} (sq : ℚ → ℚ) (c : Bands m n) (bg : Grid m n Bool) :
    (∀ (i : Fin m) (j : Fin n),
        ((i : ℕ) < 30 ∨ m - 30 ≤ (i : ℕ) ∨ (j : ℕ) < 30 ∨ n - 30 ≤ (j : ℕ)) →
          (potential_fire sq c bg true).data i j = false
        ∧ (potential_fire sq c bg true).mask i j = false)
    ∧ potential_fire sq c bg false = potential_core sq c bg := by
  constructor
  · intro i j h
    have he : isEdge m n i j = true := by
      simp only [isEdge, Bool.or_eq_true, decide_eq_true_eq]
      tauto
    constructor <;> simp [potential_fire, he]
  · rfl

/-- C5 witness: on the 1×1 scene `exC1` the single pixel (0,0) lies in the
border band, so with edge masking enabled the output there is FALSE. -/
theorem C5_edge_masking_witness :
    (potential_fire Rat.sqrt exC1 exC1bg true).data 0 0 = false
      ∧ (potential_fire Rat.sqrt exC1 exC1bg true).mask 0 0 = false :=
  (C5_edge_masking Rat.sqrt exC1 exC1bg).1 0 0 (Or.inl (by norm_num))

/-- C6: the background mask equals `NOT(unambiguous OR water) AND band7 > 0`
pixelwise, hence is FALSE wherever either input mask is TRUE and wherever
band7 ≤ 0. -/
theorem C6_background_iff {m n : ℕ} (c : Bands m n)
    (unambiguous_array water_array : Grid m n Bool) (i : Fin m) (j : Fin n) :
    background c unambiguous_array water_array i j = true ↔
      ¬(unambiguous_array i j = true ∨ water_array i j = true)
        ∧ 0 < c.band7 i j := by
  simp [background, not_or]

set_option maxRecDepth 100000 in
unseal Rat.add Rat.sub Rat.mul Rat.inv Rat.ofScientific in
/-- C7: `unambiguous_fire` is TRUE at a pixel iff ratio75 > 2.5 AND
diff75 > 0.3 AND band7 > 0.5, all strict; the pixel with band5 = 0.1,
band7 = 0.6 is TRUE, and the same pixel with band7 exactly 0.5 is FALSE. -/
theorem C7_unambiguous_fire_iff {m n : ℕ} (c : Bands m n) (i : Fin m) (j : Fin n) :
    (unambiguous_fire c i j = true ↔
      2.5 < ratio75 c i j ∧ 0.3 < diff75 c i j ∧ 0.5 < c.band7 i j)
    ∧ unambiguous_fire exC7a 0 0 = true
    ∧ unambiguous_fire exC7b 0 0 = false := by
  refine ⟨?_, by decide, by decide⟩
  simp [unambiguous_fire]

set_option maxRecDepth 100000 in
unseal Rat.add Rat.sub Rat.mul Rat.inv Rat.ofScientific in
/-- C8 counterexample: the claim asserts the spec's worked example becomes
TRUE after lowering band1 to 0.2, but the code returns FALSE there: with
band1 = 0.2 and band2 = 0.25 the strictly decreasing chain
band1 > band2 > band3 > band4 fails at its first link, band3 = 0.2 is not
greater than band2 = 0.25 either, so the water-type test fails even though
the base test now passes. -/
theorem C8_lowered_band1_example_not_water : water_pixels exC8b 0 0 = false := by
  decide

set_option maxRecDepth 100000 in
unseal Rat.add Rat.sub Rat.mul Rat.inv Rat.ofScientific in
/-- C8 (amended): `water_pixels` is TRUE at a pixel iff the base test
(band4 > band5 > band6 > band7 and diff17 < 0.2) and the water-type test
(band3 > band2, or band1 > band2 > band3 > band4) both hold; the spec's
worked example with diff17 = 0.25 is FALSE, and after lowering band1 to 0.2
it is STILL FALSE because the water-type test fails. -/
theorem C8_water_pixels_iff {m n : ℕ} (c : Bands m n) (i : Fin m) (j : Fin n) :
    (water_pixels c i j = true ↔
      ((c.band4 i j > c.band5 i j ∧ c.band5 i j > c.band6 i j)
          ∧ (c.band6 i j > c.band7 i j ∧ diff17 c i j < 0.2))
        ∧ (c.band3 i j > c.band2 i j
          ∨ (c.band1 i j > c.band2 i j ∧ c.band2 i j > c.band3 i j
              ∧ c.band3 i j > c.band4 i j)))
    ∧ water_pixels exC8a 0 0 = false
    ∧ water_pixels exC8b 0 0 = false := by
  refine ⟨?_, by decide, by decide⟩
  simp [water_pixels, and_assoc]

set_option maxRecDepth 100000 in
unseal Rat.add Rat.sub Rat.mul Rat.inv Rat.ofScientific in
/-- C9: `dn_fold` is TRUE at a pixel iff (band6 > 0.8 AND band1 < 0.2) AND
(band5 > 0.4 OR band7 < 0.1); the pixel with band1 = 0.1, band5 = 0.5,
band6 = 0.9, band7 = 0.05 is TRUE. -/
theorem C9_dn_fold_iff {m n : ℕ} (c : Bands m n) (i : Fin m) (j : Fin n) :
    (dn_fold c i j = true ↔
      (0.8 < c.band6 i j ∧ c.band1 i j < 0.2)
        ∧ (0.4 < c.band5 i j ∨ c.band7 i j < 0.1))
    ∧ dn_fold exC9 0 0 = true := by
  refine ⟨?_, by decide⟩
  simp [dn_fold]

/-- C10: the unambiguous-fire and water masks are disjoint at every pixel:
unambiguous fire requires diff75 = band7 − band5 > 0.3 while the water base
test requires band5 > band6 > band7, hence diff75 < 0. -/
theorem C10_unambiguous_water_disjoint {m n : ℕ} (c : Bands m n)
    (i : Fin m) (j : Fin n) :
    (unambiguous_fire c i j && water_pixels c i j) = false := by
  cases hu : unambiguous_fire c i j with
  | false => simp
  | true =>
    cases hw : water_pixels c i j with
    | false => simp
    | true =>
      exfalso
      simp only [unambiguous_fire, water_pixels, diff75, diff17, Bool.and_eq_true,
        decide_eq_true_eq] at hu hw
      obtain ⟨h1, h2, h3⟩ := hu
      obtain ⟨⟨⟨h4, h5⟩, h6, h7⟩, h8⟩ := hw
      linarith
